import Mathlib

/-!
Verification development for the hr-service evaluation pipeline.

Shallow embedding of the job pipeline of this repository:
the retry/backoff wrappers of `src/core/ai_engine.py` and
`src/core/rag_engine.py`, the job record store of `models.py`, the
Redis worker of `src/workers/simple_worker.py`, the queue manager of
`src/workers/queue_manager.py`, the result endpoint of `main.py`, the
evaluation orchestration of `src/core/evaluation.py`, and the file
ingestion of `src/core/rag_engine.py`.

External collaborators (the Gemini generation service, the Chroma
similarity index, the filesystem, Redis itself) are passed in as
explicit parameters, mirroring the boundary the source code draws
around them.  Machine floats of the Python source are modelled as
rationals: every operation the code performs on the scores
(comparisons, rounding to a fixed number of decimals, averaging) is
exact on the values in range, so `Rat` is a faithful carrier.
-/

deriving instance DecidableEq for Except

namespace HrService

/-! ### String containment, mirroring Python's `in` operator on `str` -/

/-- `chPref needle hay` is true when `needle` is an initial segment of `hay`. -/
def chPref : List Char → List Char → Bool
  | [], _ => true
  | _ :: _, [] => false
  | a :: as, b :: bs => a == b && chPref as bs

/-- `chSub needle hay` is true when `needle` occurs contiguously inside `hay`;
this is Python's `needle in hay` on strings, written on the character lists. -/
def chSub (needle : List Char) : List Char → Bool
  | [] => chPref needle []
  | h :: t => chPref needle (h :: t) || chSub needle t

/-- `strHasSub hay needle` models the Python expression `needle in hay`. -/
def strHasSub (hay needle : String) : Bool :=
  chSub needle.data hay.data

/-- `strLower` models Python's `str.lower()` on the ASCII error messages
this code handles, character by character. -/
def strLower (s : String) : String :=
  String.mk (s.data.map Char.toLower)

/-- `pyStrip` models Python's `str.strip()` (no arguments): drop leading
and trailing whitespace. -/
def pyStrip (s : String) : String :=
  String.mk (((s.data.dropWhile Char.isWhitespace).reverse.dropWhile
    Char.isWhitespace).reverse)

/-! ### Error classification of the two retry wrappers

`_retry_with_backoff` in `src/core/ai_engine.py` lowercases `str(e)` and
tests it against a fixed pattern list; a second pattern list then forces
the error non-retryable.  `_rag_retry_with_backoff` in
`src/core/rag_engine.py` has its own single pattern list. -/

/-- Retryable-pattern test of `ai_engine._retry_with_backoff` (the
`is_retryable = (...)` disjunction over the lowercased error string). -/
def aiRetryablePattern (e : String) : Bool :=
  strHasSub e "rate limit" ||
  strHasSub e "429" ||
  strHasSub e "timeout" ||
  strHasSub e "deadline exceeded" ||
  strHasSub e "500" ||
  strHasSub e "503" ||
  strHasSub e "502" ||
  strHasSub e "resource exhausted" ||
  strHasSub e "quota exceeded" ||
  strHasSub e "billing" ||
  strHasSub e "permission denied" ||
  strHasSub e "bad gateway" ||
  strHasSub e "service unavailable" ||
  strHasSub e "temporarily unavailable" ||
  strHasSub e "overloaded"

/-- Non-retryable override of `ai_engine._retry_with_backoff` (the
`if (... in error_str ...): is_retryable = False` block). -/
def aiNonRetryablePattern (e : String) : Bool :=
  strHasSub e "invalid request" ||
  strHasSub e "bad request" ||
  strHasSub e "authentication" ||
  strHasSub e "authorization" ||
  strHasSub e "forbidden"

/-- Full classification of `ai_engine._retry_with_backoff`: lowercase the
message, test the retryable patterns, then apply the non-retryable
override. -/
def aiIsRetryable (msg : String) : Bool :=
  let e := strLower msg
  if aiNonRetryablePattern e then false else aiRetryablePattern e

/-- Classification of `rag_engine._rag_retry_with_backoff` (its
`is_retryable = (...)` disjunction over the lowercased error string);
this wrapper has no non-retryable override list. -/
def ragIsRetryable (msg : String) : Bool :=
  let e := strLower msg
  strHasSub e "connection" ||
  strHasSub e "timeout" ||
  strHasSub e "unavailable" ||
  strHasSub e "busy" ||
  strHasSub e "overloaded" ||
  strHasSub e "failed to" ||
  strHasSub e "i/o" ||
  strHasSub e "permission" ||
  strHasSub e "disk" ||
  strHasSub e "memory" ||
  strHasSub e "invalid collection"

/-! ### The retry loops

`_retry_with_backoff(func, max_retries, base_delay)` runs
`for attempt in range(max_retries + 1)` calling `func` each iteration.
The attempt outcomes are modelled as a function `f : Nat → Except String α`
giving the result of the attempt with that index (`Except.error e`
models `func` raising with `str(e) = e`).  Backoff sleeps only delay the
next attempt and are not modelled.  On a successful call the wrapper
additionally runs `_validate_llm_response(result, kwargs.get
('response_model', None))`: every call site of the wrapper in this
repository omits the `response_model` kwarg, so that check reduces to
the Python truthiness test `if not response`, which no pydantic model
instance fails; it is therefore a no-op on the modelled outcomes, and
the real validation happens inside the attempt functions themselves.

The Lean functions also return the number of times the operation was
invoked, an instrumentation the theorems below quantify over. -/

/-- One step of `ai_engine._retry_with_backoff`: `m` is `max_retries`
(used only in the terminal message), `attempt` the current index,
`remaining` the retries still allowed (`m - attempt`). -/
def aiRetryGo (f : Nat → Except String α) (m attempt : Nat) :
    Nat → Except String α × Nat
  | 0 =>
    match f attempt with
    | .ok a => (.ok a, 1)
    | .error e =>
      if aiIsRetryable e then
        (.error ("LLM API call failed after " ++ toString m ++ " retries: " ++ e), 1)
      else
        (.error ("LLM API call failed with non-retryable error: " ++ e), 1)
  | r + 1 =>
    match f attempt with
    | .ok a => (.ok a, 1)
    | .error e =>
      if aiIsRetryable e then
        let rest := aiRetryGo f m (attempt + 1) r
        (rest.1, rest.2 + 1)
      else
        (.error ("LLM API call failed with non-retryable error: " ++ e), 1)

/-- `ai_engine._retry_with_backoff` with `max_retries = m`: result of the
wrapped call plus the number of invocations of the operation. -/
def aiRetry (f : Nat → Except String α) (m : Nat) : Except String α × Nat :=
  aiRetryGo f m 0 m

/-- One step of `rag_engine._rag_retry_with_backoff`, in the same shape
as `aiRetryGo`. -/
def ragRetryGo (f : Nat → Except String α) (m attempt : Nat) :
    Nat → Except String α × Nat
  | 0 =>
    match f attempt with
    | .ok a => (.ok a, 1)
    | .error e =>
      if ragIsRetryable e then
        (.error ("RAG operation failed after " ++ toString m ++ " retries: " ++ e), 1)
      else
        (.error ("RAG operation failed with non-retryable error: " ++ e), 1)
  | r + 1 =>
    match f attempt with
    | .ok a => (.ok a, 1)
    | .error e =>
      if ragIsRetryable e then
        let rest := ragRetryGo f m (attempt + 1) r
        (rest.1, rest.2 + 1)
      else
        (.error ("RAG operation failed with non-retryable error: " ++ e), 1)

/-- `rag_engine._rag_retry_with_backoff` with `max_retries = m`. -/
def ragRetry (f : Nat → Except String α) (m : Nat) : Except String α × Nat :=
  ragRetryGo f m 0 m

/-! ### The job record store (`models.py`)

A job row of the `jobs` table.  `status` is one of the four strings the
code ever writes, modelled as an enumeration.  `result_json` holds the
JSON-serialised result payload; serialisation of the finite dictionaries
involved is modelled as the identity on a structured `Payload`, so
`json.dumps`/`json.loads` round-tripping is implicit.  `updated_at` is
the `CURRENT_TIMESTAMP` written by `update_status`, supplied as an
explicit clock value. -/

/-- Job status values written by this repository:
`queued`, `processing`, `completed`, `failed`. -/
inductive Status
  | queued
  | processing
  | completed
  | failed
deriving DecidableEq, Repr

/-- The flat result dictionary `overall.dict()` of an `OverallResult`
(`src/core/ai_engine.py`), stored by `main._run_job` and
`evaluation.evaluate_candidate_job`. -/
structure OverallRes where
  cv_match_rate : ℚ
  cv_feedback : String
  project_score : ℚ
  project_feedback : String
  overall_summary : String
deriving DecidableEq, Repr

/-- The nested `final_result` dictionary built by
`SimpleWorker.process_job`: `cv_result.match_rate`, `cv_result.feedback`,
`project_result.score`, `project_result.feedback`,
`overall_result.summary` (the `processing_metadata` timestamps are not
modelled). -/
structure FinalResult where
  match_rate : ℚ
  cv_feedback : String
  score : ℚ
  project_feedback : String
  summary : String
deriving DecidableEq, Repr

/-- The result payloads that flow through the job table and the Redis
result cache: the SimpleWorker nested shape, the flat `_run_job` shape,
and the error shape built by `SimpleWorker._create_error_result`
(a dict with an `error` key and a `traceback`). -/
inductive Payload
  | worker (fr : FinalResult)
  | flat (ov : OverallRes)
  | errorp (msg : String) (tb : String)
deriving DecidableEq, Repr

/-- Python's `"error" in result` test on a payload dictionary. -/
def hasErrorKey : Payload → Bool
  | .errorp _ _ => true
  | _ => false

/-- `result["error"]` of an error payload (unused on the other shapes). -/
def payloadErr : Payload → String
  | .errorp m _ => m
  | _ => ""

/-- A row of the `jobs` table (`models.py`). -/
structure JobRec where
  job_title : String
  cv_id : Option Nat
  report_id : Option Nat
  status : Status
  result_json : Option Payload
  error_message : Option String
  updated_at : Nat
deriving DecidableEq

/-- The jobs table, keyed by integer id. -/
def DB : Type := Nat → Option JobRec

/-- `Job.update_status(job_id, status, result_json=None, error_message=None)`:
a single-row UPDATE that sets `status`, overwrites BOTH `result_json`
and `error_message` with the passed values (defaulting to null), and
stamps `updated_at`; a no-op when the row does not exist. -/
def updateStatus (db : DB) (id : Nat) (s : Status)
    (r : Option Payload) (e : Option String) (now : Nat) : DB :=
  fun i =>
    if i = id then
      (db i).map fun j =>
        { j with status := s, result_json := r, error_message := e, updated_at := now }
    else db i

/-! ### The broker result cache (Redis `job_result:<id>` keys)

`SimpleWorker.save_result` writes the payload under `job_result:<id>`
with `setex(..., 3600, ...)`.  The cache is modelled as a partial map
from job id to payload; TTL expiry is modelled by querying a cache state
in which the entry is absent. -/

/-- The Redis result cache: `job_result:<id> -> payload`. -/
def Cache : Type := Nat → Option Payload

/-- The everywhere-expired (or never-written) cache. -/
def emptyCache : Cache := fun _ => none

/-- `SimpleWorker.save_result(job_id, result)`: `setex` of the serialised
payload under the job-scoped key (TTL 3600 s starts here). -/
def saveResult (cache : Cache) (id : Nat) (p : Payload) : Cache :=
  fun i => if i = id then some p else cache i

/-! ### The result endpoint (`main.get_result`) -/

/-- The specification-format result dictionary produced by
`main._transform_result_to_spec_format`. -/
structure SpecResult where
  cv_match_rate : ℚ
  cv_feedback : String
  project_score : ℚ
  project_feedback : String
  overall_summary : String
deriving DecidableEq, Repr

/-- `main._transform_result_to_spec_format(result)` applied to
`result or {}`: reads the nested SimpleWorker keys with defaults
`0.0` / `""`; any payload without those nested keys (the flat shape, the
error shape, or a missing payload) yields the all-default dictionary. -/
def transformResult : Option Payload → SpecResult
  | some (.worker fr) =>
    { cv_match_rate := fr.match_rate
      cv_feedback := fr.cv_feedback
      project_score := fr.score
      project_feedback := fr.project_feedback
      overall_summary := fr.summary }
  | _ => { cv_match_rate := 0, cv_feedback := "", project_score := 0,
           project_feedback := "", overall_summary := "" }

/-- The all-default specification result (`cv_match_rate 0.0`, empty
feedback strings). -/
def defaultSpec : SpecResult := transformResult none

/-- The JSON body returned by `GET /result/<job_id>`, reduced to the
fields the claims are about (id echoing and HTTP codes dropped). -/
inductive ApiResp
  | notFound
  | pending (st : Status)
  | failedResp (err : String)
  | completedResp (r : SpecResult)
deriving DecidableEq

/-- `main.get_result(job_id)`: fetch the job row; for `queued`/`processing`
poll the broker cache (`queue_manager.get_result(job_id, timeout=5)`,
modelled as one read of the structured cache — decoding of a payload the
worker itself serialised always succeeds) and on a hit persist
`failed`+error or `completed`+result back to the job table; for
`completed` serve `result_json` from the table, else fall back to the
cache and backfill the table on a hit, else serve the transform of the
empty dictionary; otherwise (a `failed` row) serve
`error_message or "Unknown error"`.  Returns the response together with
the possibly-updated table. -/
def getResultApi (db : DB) (cache : Cache) (id now : Nat) : ApiResp × DB :=
  match db id with
  | none => (.notFound, db)
  | some job =>
    if job.status = Status.queued ∨ job.status = Status.processing then
      match cache id with
      | some p =>
        if hasErrorKey p then
          (.failedResp (payloadErr p),
           updateStatus db id .failed none (some (payloadErr p)) now)
        else
          (.completedResp (transformResult (some p)),
           updateStatus db id .completed (some p) none now)
      | none => (.pending job.status, db)
    else if job.status = Status.completed then
      match job.result_json with
      | some p => (.completedResp (transformResult (some p)), db)
      | none =>
        match cache id with
        | some p =>
          (.completedResp (transformResult (some p)),
           updateStatus db id .completed (some p) none now)
        | none => (.completedResp (transformResult none), db)
    else
      (.failedResp (job.error_message.getD "Unknown error"), db)

/-! ### The queue manager poll loop
(`SimpleQueueManager.get_result` in `src/workers/queue_manager.py`)

The loop reads the raw string under `job_result:<id>`, decodes it with
`json.loads` (passed in as `decode`, with `none` modelling a
`JSONDecodeError`), and on a decode failure returns `None` at once (the
exception is caught inside the loop body); on a missing key it re-polls
every 2 s until the timeout elapses.  `cacheRaw t` is the raw value seen
by the poll with index `t`, and `fuel` is the number of re-polls the
timeout still allows.  The returned `Nat` counts the polls performed. -/

/-- One poll of `SimpleQueueManager.get_result`, with `fuel` re-polls
remaining. -/
def qmGetResultGo (decode : String → Option Payload)
    (cacheRaw : Nat → Option String) (t : Nat) :
    Nat → Option Payload × Nat
  | 0 =>
    match cacheRaw t with
    | some s =>
      match decode s with
      | some r => (some r, 1)
      | none => (none, 1)
    | none => (none, 1)
  | fuel + 1 =>
    match cacheRaw t with
    | some s =>
      match decode s with
      | some r => (some r, 1)
      | none => (none, 1)
    | none =>
      let rest := qmGetResultGo decode cacheRaw (t + 1) fuel
      (rest.1, rest.2 + 1)

/-- `SimpleQueueManager.get_result(job_id, timeout)`: the poll loop
started at poll index 0. -/
def qmGetResult (decode : String → Option Payload)
    (cacheRaw : Nat → Option String) (fuel : Nat) : Option Payload × Nat :=
  qmGetResultGo decode cacheRaw 0 fuel

/-! ### The Redis worker (`src/workers/simple_worker.py`)

`SimpleWorker.process_job` orchestrates one dequeued message.  All of
its external collaborators are passed in through `WEnv`:
the `documents` table, file reading (`_read_file_content_with_retry`,
whose internal retry loop is collapsed into the one `Except` outcome the
worker observes), AI availability, and the three evaluation-client
operations.  The worker passes NO `context_snippets` argument to
`evaluate_cv`/`evaluate_project` (modelled as `none`), and it uses
`job_title` as the `case_brief_text` of `evaluate_project`.

Calls to external systems of interest are also logged as events so that
theorems can speak about which calls a run performs. -/

/-- A row of the `documents` table used by the worker. -/
structure Doc where
  filename : String
  path : String
deriving DecidableEq

/-- Call events a pipeline run can emit. -/
inductive Ev
  | updStatus (id : Nat) (st : Status)
  | ragQuery (q : String) (n : Nat)
  | evCV (snips : Option (List String))
  | evProj (snips : Option (List String))
deriving DecidableEq, Repr

/-- Is this event a Retrieval Subsystem query (`rag_engine.query`)? -/
def isRagQ : Ev → Bool
  | .ragQuery _ _ => true
  | _ => false

/-- A validated `CVResult` of `src/core/ai_engine.py`:
`cv_match_rate` and `cv_feedback`. -/
structure CVRes where
  cv_match_rate : ℚ
  cv_feedback : String
deriving DecidableEq, Repr

/-- A validated `ProjectResult` of `src/core/ai_engine.py`:
`project_score` and `project_feedback`. -/
structure ProjRes where
  project_score : ℚ
  project_feedback : String
deriving DecidableEq, Repr

/-- External collaborators of `SimpleWorker.process_job`. -/
structure WEnv where
  docs : Nat → Option Doc
  readFile : String → Except String String
  aiAvail : Bool
  evalCV : String → String → Option (List String) → Except String CVRes
  evalProj : String → String → Option (List String) → Except String ProjRes
  synth : CVRes → ProjRes → Except String OverallRes

/-- The queue message a worker dequeues
(`job_id`, `cv_id`, `report_id`, `job_title`). -/
structure QueueMsg where
  job_id : Nat
  cv_id : Nat
  report_id : Nat
  job_title : String

/-- Assembly of `final_result` in `SimpleWorker.process_job` from the
three evaluation results. -/
def mkFinal (c : CVRes) (p : ProjRes) (o : OverallRes) : FinalResult :=
  { match_rate := c.cv_match_rate
    cv_feedback := c.cv_feedback
    score := p.project_score
    project_feedback := p.project_feedback
    summary := o.overall_summary }

/-- `SimpleWorker.process_job(job_data)`: mark the job `processing`,
resolve both documents (raising when either is missing), require AI
availability, read both files, run `evaluate_cv` (no snippets argument),
`evaluate_project` (case brief := job_title, no snippets argument) and
`synthesize_overall`, then mark the job `completed` — passing no
`result_json`.  `Except.error` models the raised exception's message.
Returns (outcome, job table after the run, events emitted). -/
def processJob (env : WEnv) (jd : QueueMsg) (db : DB) (t1 t2 : Nat) :
    Except String FinalResult × DB × List Ev :=
  let db1 := updateStatus db jd.job_id .processing none none t1
  let tr0 := [Ev.updStatus jd.job_id .processing]
  match env.docs jd.cv_id, env.docs jd.report_id with
  | none, _ => (.error "Documents not found", db1, tr0)
  | some _, none => (.error "Documents not found", db1, tr0)
  | some cvDoc, some repDoc =>
    if env.aiAvail = false then
      (.error "AI services not available. Please ensure Instructor, Google Generative AI, and GEMINI_API_KEY are properly configured.",
       db1, tr0)
    else
      match env.readFile cvDoc.path with
      | .error e => (.error e, db1, tr0)
      | .ok cvText =>
        match env.readFile repDoc.path with
        | .error e => (.error e, db1, tr0)
        | .ok repText =>
          match env.evalCV cvText jd.job_title none with
          | .error e => (.error e, db1, tr0 ++ [Ev.evCV none])
          | .ok cvr =>
            match env.evalProj repText jd.job_title none with
            | .error e => (.error e, db1, tr0 ++ [Ev.evCV none, Ev.evProj none])
            | .ok prr =>
              match env.synth cvr prr with
              | .error e => (.error e, db1, tr0 ++ [Ev.evCV none, Ev.evProj none])
              | .ok ov =>
                let fr := mkFinal cvr prr ov
                let db2 := updateStatus db1 jd.job_id .completed none none t2
                (.ok fr, db2,
                 tr0 ++ [Ev.evCV none, Ev.evProj none, Ev.updStatus jd.job_id .completed])

/-- `SimpleWorker._create_error_result(job_id, error, trace)`: when the
job id is truthy, mark the job `failed` — passing NO `error_message` —
and return the error-shaped payload. -/
def createErrorResult (db : DB) (jobId : Option Nat) (err tb : String)
    (now : Nat) : Payload × DB :=
  ( Payload.errorp err tb,
    match jobId with
    | some j => updateStatus db j .failed none none now
    | none => db )

/-! ### The evaluation orchestration (`src/core/evaluation.py`)

`evaluate_candidate_job(job_id)` is the Celery-task evaluation path.
Its collaborators are passed in through `CEnv`: the document table,
best-effort text resolution (sidecar file or `_read_pdf_text`, both of
which swallow their errors into an empty string), the case-study brief
text (empty when the file is missing), the Retrieval Subsystem `query`,
and the three evaluation-client operations.  Each of its two `query`
calls sits in its own `try/except` that turns any failure into an empty
snippet list. -/

/-- The fixed project-scoring retrieval query string of
`evaluation.evaluate_candidate_job` (also used by `main._run_job`). -/
def fixedProjectQuery : String :=
  "project scoring prompt chaining RAG error handling"

/-- The per-call `try/except` around `rag_engine.query` in
`evaluate_candidate_job`: a failure yields the empty snippet list. -/
def snippetsOf : Except String (List String) → List String
  | .ok l => l
  | .error _ => []

/-- External collaborators of `evaluation.evaluate_candidate_job`. -/
structure CEnv where
  docs : Nat → Option Doc
  docText : Doc → String
  caseText : String
  rag : String → Nat → Except String (List String)
  evalCV : String → String → Option (List String) → Except String CVRes
  evalProj : String → String → Option (List String) → Except String ProjRes
  synth : CVRes → ProjRes → Except String OverallRes

/-- Text of the job's CV document in `evaluate_candidate_job`
(empty when the id or the document is missing). -/
def candCvText (env : CEnv) (job : JobRec) : String :=
  match job.cv_id.bind env.docs with
  | some d => env.docText d
  | none => ""

/-- Text of the job's report document in `evaluate_candidate_job`. -/
def candRepText (env : CEnv) (job : JobRec) : String :=
  match job.report_id.bind env.docs with
  | some d => env.docText d
  | none => ""

/-- `evaluation.evaluate_candidate_job(job_id)`: look the job up, mark it
`processing`, resolve both document texts, query the Retrieval Subsystem
twice — by `job_title` and by the fixed project-scoring string, each
failure yielding `[]` — then run the three evaluation operations in
sequence (snippets are passed explicitly here); full success persists
`completed` with the flat result payload, an evaluation failure persists
`failed` with the error message.  Returns the
(success-flag, message) pair of the source, the job table after the run,
and the events emitted. -/
def evalCandidateJob (env : CEnv) (db : DB) (jobId t1 t2 : Nat) :
    (Bool × String) × DB × List Ev :=
  match db jobId with
  | none => ((false, "Job not found"), db, [])
  | some job =>
    let db1 := updateStatus db jobId .processing none none t1
    let cvText := candCvText env job
    let repText := candRepText env job
    let cvSnips := snippetsOf (env.rag job.job_title 3)
    let repSnips := snippetsOf (env.rag fixedProjectQuery 3)
    let tr0 := [Ev.updStatus jobId .processing,
                Ev.ragQuery job.job_title 3,
                Ev.ragQuery fixedProjectQuery 3]
    match env.evalCV cvText job.job_title (some cvSnips) with
    | .error e =>
      ((false, "Evaluation failed: " ++ e),
       updateStatus db1 jobId .failed none (some e) t2,
       tr0 ++ [Ev.evCV (some cvSnips)])
    | .ok cvr =>
      match env.evalProj repText env.caseText (some repSnips) with
      | .error e =>
        ((false, "Evaluation failed: " ++ e),
         updateStatus db1 jobId .failed none (some e) t2,
         tr0 ++ [Ev.evCV (some cvSnips), Ev.evProj (some repSnips)])
      | .ok prr =>
        match env.synth cvr prr with
        | .error e =>
          ((false, "Evaluation failed: " ++ e),
           updateStatus db1 jobId .failed none (some e) t2,
           tr0 ++ [Ev.evCV (some cvSnips), Ev.evProj (some repSnips)])
        | .ok ov =>
          ((true, "Evaluation completed successfully"),
           updateStatus db1 jobId .completed (some (Payload.flat ov)) none t2,
           tr0 ++ [Ev.evCV (some cvSnips), Ev.evProj (some repSnips)])

/-! ### File ingestion (`rag_engine.ingest_file` / `ingest_text`)

`ingest_file(path, doc_type, title)` extracts text (PyMuPDF / PyPDF2 /
plain read, every failure collapsing to the empty string — passed in as
`extract`), derives
`doc_id = f"file:{os.path.basename(path)}:{abs(hash(path))}"`, and
ingests only when the text is non-empty.  Python's built-in `hash` on
`str` is salted per interpreter process (hash randomisation), so it is
passed in as the process's string-hash function `pyHash`. -/

/-- The similarity index contents, reduced to (id, document) pairs. -/
def RagStore : Type := List (String × String)

/-- `rag_engine.ingest_text(doc_id, text)`: no-op on empty text, else an
insert into the index under `doc_id` (retry wrapper and metadata not
modelled here). -/
def ingestText (store : RagStore) (docId text : String) : RagStore :=
  if text = "" then store else (docId, text) :: store

/-- Characters after the last slash: `cur` accumulates (reversed) the
characters of the current path component. -/
def basenameAux (cur : List Char) : List Char → List Char
  | [] => cur.reverse
  | c :: t => if c = '/' then basenameAux [] t else basenameAux (c :: cur) t

/-- `os.path.basename` for the POSIX paths this service builds. -/
def basenameOf (path : String) : String :=
  String.mk (basenameAux [] path.data)

/-- The derived document id of `ingest_file`:
`"file:" ++ basename(path) ++ ":" ++ abs(hash(path))`. -/
def ingestFileId (pyHash : String → Int) (path : String) : String :=
  "file:" ++ basenameOf path ++ ":" ++ toString (pyHash path).natAbs

/-- `rag_engine.ingest_file(path, ...)`: extract text, derive the id,
ingest when the text is non-empty, skip otherwise; the id is returned in
both cases. -/
def ingestFile (extract : String → String) (pyHash : String → Int)
    (store : RagStore) (path : String) : String × RagStore :=
  let text := extract path
  let docId := ingestFileId pyHash path
  if text = "" then (docId, store)
  else (docId, ingestText store docId text)

/-! ### The CV evaluation client (`ai_engine.evaluate_cv`)

One generation call is modelled as an `Except`-valued raw response: the
transport either raises (`Except.error e`, classified by the retry
wrapper) or materialises a record with a `cv_match_rate` number and a
`cv_feedback` string.  `instructor`/pydantic then construct a `CVResult`
from it, running the `Field` constraints
(`ge=0, le=1`, `min_length=10`) and the `field_validator`s (bounds
check + `round(v, 2)`; strip + non-empty check); a constraint violation
raises a validation error (its pydantic message is condensed here, which
preserves how `_retry_with_backoff` classifies it: no retryable pattern
matches either spelling).  `_validate_llm_response(resp, CVResult)` then
re-checks the bounds and that the stripped feedback has at least 10
characters.  Python's `round(v, 2)` is modelled with Mathlib's `round`
(the two differ only on exact ties, which no claim depends on). -/

/-- `round(v, 2)` of the pydantic validator. -/
def roundTo2 (q : ℚ) : ℚ := ((round (100 * q) : ℤ) : ℚ) / 100

/-- A raw generation-service response for the CVResult schema. -/
structure RawCV where
  rate : ℚ
  feedback : String

/-- The pydantic validation message for an out-of-range match rate. -/
def pydRateMsg : String :=
  "validation error for CVResult: Match rate must be between 0 and 1"

/-- pydantic construction of `CVResult` from a raw response:
bounds check on `cv_match_rate` (then `round(v, 2)`), strip plus
non-empty and `min_length=10` checks on `cv_feedback`. -/
def pydCV (raw : RawCV) : Except String CVRes :=
  if raw.rate < 0 ∨ raw.rate > 1 then
    .error pydRateMsg
  else
    let fb := pyStrip raw.feedback
    if fb = "" then
      .error "validation error for CVResult: Text fields cannot be empty"
    else if fb.length < 10 then
      .error "validation error for CVResult: String should have at least 10 characters"
    else
      .ok { cv_match_rate := roundTo2 raw.rate, cv_feedback := fb }

/-- `_validate_llm_response(resp, CVResult)`: re-check the bounds of
`cv_match_rate` and that the stripped `cv_feedback` has at least 10
characters, raising the `Invalid ...` messages of the source. -/
def validateCVResp (r : CVRes) : Except String Unit :=
  if r.cv_match_rate < 0 ∨ r.cv_match_rate > 1 then
    .error "Invalid cv_match_rate in CV evaluation result"
  else if (pyStrip r.cv_feedback).length < 10 then
    .error "Invalid cv_feedback in CV evaluation result"
  else
    .ok ()

/-- One attempt of `_evaluate_cv_internal`: the generation call followed
by pydantic construction and `_validate_llm_response`. -/
def cvAttempt (llm : Nat → Except String RawCV) (i : Nat) :
    Except String CVRes :=
  match llm i with
  | .error e => .error e
  | .ok raw =>
    match pydCV raw with
    | .error e => .error e
    | .ok r =>
      match validateCVResp r with
      | .error e => .error e
      | .ok _ => .ok r

/-- `ai_engine.evaluate_cv(cv_text, job_title)`: availability check,
emptiness checks on the stripped inputs, then
`_retry_with_backoff(_evaluate_cv_internal, max_retries=5)`, wrapping a
final failure as `CV evaluation failed: ...`.  The second component is
the number of generation attempts the wrapper performed. -/
def evaluateCV (llm : Nat → Except String RawCV) (aiAvail : Bool)
    (cvText jobTitle : String) : Except String CVRes × Nat :=
  if aiAvail = false then
    (.error "AI services not available. Please ensure Instructor, Google Generative AI, and GEMINI_API_KEY are properly configured.", 0)
  else if pyStrip cvText = "" then
    (.error "CV text cannot be empty", 0)
  else if pyStrip jobTitle = "" then
    (.error "Job title cannot be empty", 0)
  else
    let r := aiRetry (cvAttempt llm) 5
    match r.1 with
    | .ok v => (.ok v, r.2)
    | .error e => (.error ("CV evaluation failed: " ++ e), r.2)

/-! ### Concrete fixtures

A small concrete scenario used by the counterexamples and witnesses:
job 1 ("Backend Engineer") over documents 1 (CV) and 2 (report), with
collaborators that succeed deterministically. -/

/-- Job 1 as created by `Job.create`: `queued`, no result, no error. -/
def jobRec0 : JobRec :=
  { job_title := "Backend Engineer", cv_id := some 1, report_id := some 2,
    status := .queued, result_json := none, error_message := none,
    updated_at := 0 }

/-- A jobs table holding exactly job 1. -/
def db0 : DB := fun i => if i = 1 then some jobRec0 else none

/-- The CV document row. -/
def doc1 : Doc := { filename := "cv.pdf", path := "uploads/cv.pdf" }

/-- The report document row. -/
def doc2 : Doc := { filename := "report.pdf", path := "uploads/report.pdf" }

/-- A fixed CV evaluation outcome. -/
def cvRes0 : CVRes := { cv_match_rate := 1, cv_feedback := "Strong backend skills" }

/-- A fixed project evaluation outcome. -/
def projRes0 : ProjRes := { project_score := 4, project_feedback := "Meets requirements well" }

/-- A fixed synthesis outcome. -/
def overall0 : OverallRes :=
  { cv_match_rate := 1, cv_feedback := "Strong backend skills",
    project_score := 4, project_feedback := "Meets requirements well",
    overall_summary := "Good candidate overall fit" }

/-- Worker collaborators that all succeed. -/
def env0 : WEnv :=
  { docs := fun i => if i = 1 then some doc1 else if i = 2 then some doc2 else none
    readFile := fun p => Except.ok ("text of " ++ p)
    aiAvail := true
    evalCV := fun _ _ _ => Except.ok cvRes0
    evalProj := fun _ _ _ => Except.ok projRes0
    synth := fun _ _ => Except.ok overall0 }

/-- The queue message for job 1. -/
def jd0 : QueueMsg := { job_id := 1, cv_id := 1, report_id := 2, job_title := "Backend Engineer" }

/-- The final result `processJob` assembles in the fixture scenario. -/
def fr0 : FinalResult := mkFinal cvRes0 projRes0 overall0

/-- A generation backend that always materialises `cv_match_rate = 1.7`
(the out-of-range rate of spec Scenario C). -/
def llm17 : Nat → Except String RawCV :=
  fun _ => Except.ok { rate := 17 / 10, feedback := "Detailed feedback on the CV" }

/-- A generation backend that always materialises a valid response. -/
def llmGood : Nat → Except String RawCV :=
  fun _ => Except.ok { rate := 0, feedback := "Strong backend and cloud skills" }

/-- Job 1 after the worker marked it completed (no result persisted). -/
def jobRecC : JobRec := { jobRec0 with status := Status.completed, updated_at := 2 }

/-- A jobs table holding exactly the completed job 1. -/
def dbC : DB := fun i => if i = 1 then some jobRecC else none

/-- A result cache holding the worker result for job 1 (within its TTL). -/
def cache0 : Cache := saveResult emptyCache 1 (Payload.worker fr0)

/-! ### Helper lemmas -/

theorem roundTo2_bounds (q : ℚ) (h0 : 0 ≤ q) (h1 : q ≤ 1) :
    0 ≤ roundTo2 q ∧ roundTo2 q ≤ 1 := by
  have hl : (0 : ℤ) ≤ round (100 * q) := by
    rw [round_eq]
    exact Int.floor_nonneg.mpr (by linarith)
  have hu : round (100 * q) ≤ 100 := by
    rw [round_eq]
    have hle : (100 : ℚ) * q + 1 / 2 ≤ 100 + 1 / 2 := by linarith
    have hmono := Int.floor_mono hle
    have h201 : ⌊(100 : ℚ) + 1 / 2⌋ = 100 := by
      norm_num [Int.floor_eq_iff]
    omega
  constructor
  · unfold roundTo2
    positivity
  · unfold roundTo2
    rw [div_le_one (by norm_num)]
    exact_mod_cast hu

theorem aiIsRetryable_of_nonPattern (e : String)
    (h : aiNonRetryablePattern (strLower e) = true) :
    aiIsRetryable e = false := by
  simp [aiIsRetryable, h]

theorem aiRetryGo_nonretry {α : Type} (f : Nat → Except String α)
    (m attempt remaining : Nat) (e : String)
    (hf : f attempt = Except.error e) (hr : aiIsRetryable e = false) :
    aiRetryGo f m attempt remaining =
      (Except.error ("LLM API call failed with non-retryable error: " ++ e), 1) := by
  cases remaining <;> simp [aiRetryGo, hf, hr]

theorem aiRetryGo_allFail {α : Type} (f : Nat → Except String α) (m : Nat)
    (remaining : Nat) :
    ∀ (attempt : Nat) (e : String),
      (∀ i, attempt ≤ i → i ≤ attempt + remaining →
        ∃ e2, f i = Except.error e2 ∧ aiIsRetryable e2 = true) →
      f (attempt + remaining) = Except.error e →
      aiRetryGo f m attempt remaining =
        (Except.error ("LLM API call failed after " ++ toString m ++ " retries: " ++ e),
         remaining + 1) := by
  induction remaining with
  | zero =>
    intro attempt e hall hlast
    rw [Nat.add_zero] at hlast
    obtain ⟨e2, he2, hr⟩ := hall attempt le_rfl (by omega)
    rw [hlast] at he2
    cases he2
    simp [aiRetryGo, hlast, hr]
  | succ r ih =>
    intro attempt e hall hlast
    obtain ⟨e2, he2, hr⟩ := hall attempt le_rfl (by omega)
    have hall2 : ∀ i, attempt + 1 ≤ i → i ≤ attempt + 1 + r →
        ∃ e2, f i = Except.error e2 ∧ aiIsRetryable e2 = true := by
      intro i hi1 hi2
      exact hall i (by omega) (by omega)
    have hlast2 : f (attempt + 1 + r) = Except.error e := by
      rw [show attempt + 1 + r = attempt + (r + 1) by omega]
      exact hlast
    have hrec := ih (attempt + 1) e hall2 hlast2
    simp [aiRetryGo, he2, hr, hrec]

theorem aiRetryGo_ok {α : Type} (f : Nat → Except String α) (m : Nat)
    (remaining : Nat) :
    ∀ (attempt : Nat) (r : α),
      (aiRetryGo f m attempt remaining).1 = Except.ok r →
      ∃ i, f i = Except.ok r := by
  induction remaining with
  | zero =>
    intro attempt r h
    cases hf : f attempt with
    | ok a =>
      refine ⟨attempt, ?_⟩
      simp [aiRetryGo, hf] at h
      rw [hf, h]
    | error e =>
      rw [aiRetryGo, hf] at h
      by_cases hr : aiIsRetryable e = true <;> simp [hr] at h
  | succ n ih =>
    intro attempt r h
    cases hf : f attempt with
    | ok a =>
      refine ⟨attempt, ?_⟩
      simp [aiRetryGo, hf] at h
      rw [hf, h]
    | error e =>
      rw [aiRetryGo, hf] at h
      by_cases hr : aiIsRetryable e = true
      · simp only [hr, if_true] at h
        exact ih (attempt + 1) r h
      · simp [hr] at h

theorem ragRetryGo_allFail {α : Type} (f : Nat → Except String α) (m : Nat)
    (remaining : Nat) :
    ∀ (attempt : Nat) (e : String),
      (∀ i, attempt ≤ i → i ≤ attempt + remaining →
        ∃ e2, f i = Except.error e2 ∧ ragIsRetryable e2 = true) →
      f (attempt + remaining) = Except.error e →
      ragRetryGo f m attempt remaining =
        (Except.error ("RAG operation failed after " ++ toString m ++ " retries: " ++ e),
         remaining + 1) := by
  induction remaining with
  | zero =>
    intro attempt e hall hlast
    rw [Nat.add_zero] at hlast
    obtain ⟨e2, he2, hr⟩ := hall attempt le_rfl (by omega)
    rw [hlast] at he2
    cases he2
    simp [ragRetryGo, hlast, hr]
  | succ r ih =>
    intro attempt e hall hlast
    obtain ⟨e2, he2, hr⟩ := hall attempt le_rfl (by omega)
    have hall2 : ∀ i, attempt + 1 ≤ i → i ≤ attempt + 1 + r →
        ∃ e2, f i = Except.error e2 ∧ ragIsRetryable e2 = true := by
      intro i hi1 hi2
      exact hall i (by omega) (by omega)
    have hlast2 : f (attempt + 1 + r) = Except.error e := by
      rw [show attempt + 1 + r = attempt + (r + 1) by omega]
      exact hlast
    have hrec := ih (attempt + 1) e hall2 hlast2
    simp [ragRetryGo, he2, hr, hrec]

/-! ### Claim C6 — retry budget -/

/-- C6: for an operation that fails with a retryable error on every
attempt, each retry wrapper (`_retry_with_backoff` and
`_rag_retry_with_backoff`) invokes the operation exactly
`max_retries + 1` times and then raises a terminal failure carrying the
last underlying error. -/
theorem C6_retry_budget :
    (∀ (α : Type) (f : Nat → Except String α) (m : Nat),
      (∀ i, i ≤ m → ∃ e, f i = Except.error e ∧ aiIsRetryable e = true) →
      ∀ e, f m = Except.error e →
      aiRetry f m =
        (Except.error ("LLM API call failed after " ++ toString m ++ " retries: " ++ e),
         m + 1)) ∧
    (∀ (α : Type) (f : Nat → Except String α) (m : Nat),
      (∀ i, i ≤ m → ∃ e, f i = Except.error e ∧ ragIsRetryable e = true) →
      ∀ e, f m = Except.error e →
      ragRetry f m =
        (Except.error ("RAG operation failed after " ++ toString m ++ " retries: " ++ e),
         m + 1)) := by
  constructor
  · intro α f m hall e hlast
    exact aiRetryGo_allFail f m m 0 e
      (fun i h0 hi => hall i (by omega)) (by simpa using hlast)
  · intro α f m hall e hlast
    exact ragRetryGo_allFail f m m 0 e
      (fun i h0 hi => hall i (by omega)) (by simpa using hlast)

/-- Witness for C6 at a deterministically failing retryable operation:
`max_retries = 2` gives 3 attempts for the LLM wrapper, and
`max_retries = 3` gives 4 attempts for the RAG wrapper, each raising the
terminal message that carries the last error. -/
theorem C6_retry_budget_witness :
    aiRetry (fun _ => (Except.error "timeout" : Except String Unit)) 2
      = (Except.error "LLM API call failed after 2 retries: timeout", 3) ∧
    ragRetry (fun _ => (Except.error "connection reset" : Except String Unit)) 3
      = (Except.error "RAG operation failed after 3 retries: connection reset", 4) := by
  constructor
  · exact C6_retry_budget.1 Unit _ 2
      (fun i _ => ⟨"timeout", rfl, by decide⟩) "timeout" rfl
  · exact C6_retry_budget.2 Unit _ 3
      (fun i _ => ⟨"connection reset", rfl, by decide⟩) "connection reset" rfl

/-! ### Claim C10 — invalid JSON under the result key -/

/-- C10: when the payload stored under the job's result key exists but
does not decode as JSON, `SimpleQueueManager.get_result` returns `none`
after exactly one poll — it neither raises (the decode failure is caught
in the loop body) nor keeps polling until the timeout. -/
theorem C10_get_result_invalid_json (decode : String → Option Payload)
    (cacheRaw : Nat → Option String) (fuel : Nat) (s : String)
    (h0 : cacheRaw 0 = some s) (hbad : decode s = none) :
    qmGetResult decode cacheRaw fuel = (none, 1) := by
  cases fuel <;> simp [qmGetResult, qmGetResultGo, h0, hbad]

/-- Witness for C10: payload `"not json"` with a decoder that rejects it
and a generous poll budget still yields `none` on the first poll. -/
theorem C10_get_result_invalid_json_witness :
    qmGetResult (fun _ => none) (fun _ => some "not json") 10 = (none, 1) :=
  C10_get_result_invalid_json (fun _ => none) (fun _ => some "not json") 10
    "not json" rfl rfl

/-! ### Claim C4 — authentication / authorization / permission errors -/

/-- C4 counterexample: a `permission denied` error message matches the
RETRYABLE pattern list of both wrappers, so the operation is retried
with backoff rather than attempted exactly once — 3 attempts for the
LLM wrapper with `max_retries = 2` and 4 attempts for the RAG wrapper
with `max_retries = 3`. -/
theorem C4_permission_retried_cex :
    aiIsRetryable "permission denied" = true ∧
    (aiRetry (fun _ => (Except.error "permission denied" : Except String Unit)) 2).2 = 3 ∧
    (aiRetry (fun _ => (Except.error "permission denied" : Except String Unit)) 2).2 ≠ 1 ∧
    ragIsRetryable "permission denied" = true ∧
    (ragRetry (fun _ => (Except.error "permission denied" : Except String Unit)) 3).2 = 4 := by
  refine ⟨by decide, by decide, by decide, by decide, by decide⟩

/-- C4 amended: in the LLM wrapper, an error whose lowercased message
mentions `authentication`, `authorization` or `forbidden` is always
classified non-retryable: the operation runs exactly once and the error
propagates as a terminal failure; but `permission denied` errors match
the retryable pattern lists of both wrappers and are retried (see the
counterexample). -/
theorem C4_auth_aborts_once {α : Type} (f : Nat → Except String α) (m : Nat)
    (e : String)
    (hpat : strHasSub (strLower e) "authentication" = true ∨
            strHasSub (strLower e) "authorization" = true ∨
            strHasSub (strLower e) "forbidden" = true)
    (h0 : f 0 = Except.error e) :
    aiIsRetryable e = false ∧
    aiRetry f m =
      (Except.error ("LLM API call failed with non-retryable error: " ++ e), 1) := by
  have hnp : aiNonRetryablePattern (strLower e) = true := by
    unfold aiNonRetryablePattern
    rcases hpat with h | h | h <;> simp [h]
  have hr := aiIsRetryable_of_nonPattern e hnp
  exact ⟨hr, aiRetryGo_nonretry f m 0 m e h0 hr⟩

/-- Witness for the amended C4: an authentication error aborts after a
single attempt even with a budget of 5 retries. -/
theorem C4_auth_aborts_once_witness :
    aiIsRetryable "Authentication failure from upstream" = false ∧
    aiRetry
        (fun _ => (Except.error "Authentication failure from upstream" : Except String Unit)) 5
      = (Except.error
          "LLM API call failed with non-retryable error: Authentication failure from upstream",
         1) :=
  C4_auth_aborts_once (fun _ => Except.error "Authentication failure from upstream") 5
    "Authentication failure from upstream" (Or.inl (by decide)) rfl

/-! ### Claim C3 — schema/bounds validation failures in the wrapper -/

/-- C3 counterexample: a response that materialises with
`cv_match_rate = 1.7` fails validation; the resulting validation message
matches no retryable pattern, so the wrapper classifies it NON-retryable
and aborts after the single attempt — it does not trigger a further
retry attempt. -/
theorem C3_validation_not_retried_cex :
    aiIsRetryable pydRateMsg = false ∧
    evaluateCV llm17 true "Experienced backend developer CV" "Backend Engineer"
      = (Except.error ("CV evaluation failed: " ++
          ("LLM API call failed with non-retryable error: " ++ pydRateMsg)), 1) := by
  refine ⟨by decide, ?_⟩
  have hc : ((17 : ℚ) / 10 < 0 ∨ (17 : ℚ) / 10 > 1) := by norm_num
  have hatt : cvAttempt llm17 0 = Except.error pydRateMsg := by
    simp [cvAttempt, llm17, pydCV, hc]
  have hre := aiRetryGo_nonretry (cvAttempt llm17) 5 0 5 pydRateMsg hatt (by decide)
  have g1 : ¬(pyStrip "Experienced backend developer CV" = "") := by decide
  have g2 : ¬(pyStrip "Backend Engineer" = "") := by decide
  simp [evaluateCV, g1, g2, aiRetry, hre]

/-- C3 amended: a generation-service response that materialises but
fails the schema/bounds validation (here: `cv_match_rate > 1`) is
classified as a NON-retryable failure by the retry wrapper: `evaluate_cv`
aborts with a terminal error after exactly one attempt, with no further
retry. -/
theorem C3_validation_aborts (llm : Nat → Except String RawCV)
    (cvText jobTitle : String) (raw : RawCV)
    (hcv : ¬(pyStrip cvText = "")) (hjt : ¬(pyStrip jobTitle = ""))
    (h0 : llm 0 = Except.ok raw) (hrate : 1 < raw.rate) :
    evaluateCV llm true cvText jobTitle
      = (Except.error ("CV evaluation failed: " ++
          ("LLM API call failed with non-retryable error: " ++ pydRateMsg)), 1) := by
  have hc : (raw.rate < 0 ∨ raw.rate > 1) := Or.inr hrate
  have hatt : cvAttempt llm 0 = Except.error pydRateMsg := by
    simp [cvAttempt, h0, pydCV, hc]
  have hre := aiRetryGo_nonretry (cvAttempt llm) 5 0 5 pydRateMsg hatt (by decide)
  simp [evaluateCV, hcv, hjt, aiRetry, hre]

/-- Witness for the amended C3 at a response with `cv_match_rate = 2`. -/
theorem C3_validation_aborts_witness :
    evaluateCV (fun _ => Except.ok { rate := 2, feedback := "Detailed feedback on the CV" })
        true "Experienced backend developer CV" "Backend Engineer"
      = (Except.error ("CV evaluation failed: " ++
          ("LLM API call failed with non-retryable error: " ++ pydRateMsg)), 1) :=
  C3_validation_aborts _ _ _ { rate := 2, feedback := "Detailed feedback on the CV" }
    (by decide) (by decide) rfl (by decide)

/-! ### Claim C9 — ingest_file id derivation -/

/-- C9 counterexample: the document id embeds `abs(hash(path))`, and
Python's built-in `hash` on strings is salted per interpreter process
(hash randomisation), so two invocations of `ingest_file` on the very
same path in processes whose string-hash functions differ return
different ids — the id is not reproducible across processes. -/
theorem C9_id_not_reproducible_cex :
    (ingestFile (fun _ => "extracted text") (fun _ => 0) ([] : RagStore) "uploads/cv.pdf").1
      ≠ (ingestFile (fun _ => "extracted text") (fun _ => 1) ([] : RagStore) "uploads/cv.pdf").1 := by
  decide

/-- C9 amended: `ingest_file` always returns the id derived from the
path — also when extraction yields nothing, in which case ingestion is
skipped — and the id is deterministic within one interpreter process:
with the same process string-hash function, any two invocations on the
same path yield the same id (across processes the salted hash, and with
it the id, may differ). -/
theorem C9_id_stable_within_process (extract : String → String)
    (pyHash : String → Int) (store : RagStore) (path : String) :
    (ingestFile extract pyHash store path).1 = ingestFileId pyHash path ∧
    (extract path = "" →
      ingestFile extract pyHash store path = (ingestFileId pyHash path, store)) ∧
    (∀ (extract2 : String → String) (store2 : RagStore),
      (ingestFile extract2 pyHash store2 path).1
        = (ingestFile extract pyHash store path).1) := by
  refine ⟨?_, ?_, ?_⟩
  · unfold ingestFile
    dsimp only
    split <;> rfl
  · intro h
    simp [ingestFile, h]
  · intro e2 s2
    unfold ingestFile
    dsimp only
    split <;> split <;> rfl

/-- Witness for the amended C9: empty extraction still returns the
derived id and leaves the store unchanged; a second invocation with a
different extractor under the same process hash yields the same id. -/
theorem C9_id_stable_within_process_witness :
    (ingestFile (fun _ => "") (fun _ => 7) ([] : RagStore) "uploads/cv.pdf").1
      = ingestFileId (fun _ => 7) "uploads/cv.pdf" ∧
    ingestFile (fun _ => "") (fun _ => 7) ([] : RagStore) "uploads/cv.pdf"
      = (ingestFileId (fun _ => 7) "uploads/cv.pdf", ([] : RagStore)) ∧
    (ingestFile (fun _ => "other text") (fun _ => 7) ([] : RagStore) "uploads/cv.pdf").1
      = (ingestFile (fun _ => "") (fun _ => 7) ([] : RagStore) "uploads/cv.pdf").1 :=
  ⟨(C9_id_stable_within_process (fun _ => "") (fun _ => 7) ([] : RagStore) "uploads/cv.pdf").1,
   (C9_id_stable_within_process (fun _ => "") (fun _ => 7) ([] : RagStore) "uploads/cv.pdf").2.1 rfl,
   (C9_id_stable_within_process (fun _ => "") (fun _ => 7) ([] : RagStore) "uploads/cv.pdf").2.2
     (fun _ => "other text") ([] : RagStore)⟩

/-! ### Claim C5 — update_status and the result/error invariant -/

/-- C5 counterexample: `Job.update_status` is called by the Redis worker
as `update_status(job_id, "completed")` and (via `_create_error_result`)
as `update_status(job_id, "failed")` — both pass NEITHER `result_json`
nor `error_message`, so the call nulls both fields: the resulting
completed row carries no result and the resulting failed row carries no
error message, refuting "sets exactly one of result/error_message, a
completed job carrying a result, a failed job carrying an error". -/
theorem C5_update_none_cex :
    ((updateStatus db0 1 Status.completed none none 5) 1).map (fun j => j.status)
      = some Status.completed ∧
    ((updateStatus db0 1 Status.completed none none 5) 1).map (fun j => j.result_json)
      = some none ∧
    ((updateStatus db0 1 Status.completed none none 5) 1).map (fun j => j.error_message)
      = some none ∧
    ((updateStatus db0 1 Status.failed none none 6) 1).map (fun j => j.status)
      = some Status.failed ∧
    ((updateStatus db0 1 Status.failed none none 6) 1).map (fun j => j.error_message)
      = some none :=
  ⟨rfl, rfl, rfl, rfl, rfl⟩

/-- C5 amended: every `update_status` call sets `status` and `updated_at`
and OVERWRITES both `result_json` and `error_message` with the passed
values (each defaulting to null); since every call site of this
repository passes at most one of them, the two fields are never both
set — but a call may set neither, so a completed row need not carry a
result nor a failed row an error message. -/
theorem C5_update_overwrites_both (db : DB) (id : Nat) (s : Status)
    (r : Option Payload) (e : Option String) (now : Nat) (j : JobRec)
    (hdb : db id = some j) (hx : r = none ∨ e = none) :
    (updateStatus db id s r e now) id
      = some { j with
               status := s, result_json := r, error_message := e,
               updated_at := now } ∧
    ¬(r.isSome ∧ e.isSome) := by
  constructor
  · simp [updateStatus, hdb]
  · rcases hx with h | h <;> simp [h]

/-- Witness for the amended C5 at the `_run_job` failed-update call shape
(`status="failed"`, an error message, no result). -/
theorem C5_update_overwrites_both_witness :
    (updateStatus db0 1 Status.failed none (some "boom") 9) 1
      = some { jobRec0 with
               status := Status.failed, result_json := none,
               error_message := some "boom", updated_at := 9 } ∧
    ¬((none : Option Payload).isSome ∧ (some "boom").isSome) :=
  C5_update_overwrites_both db0 1 Status.failed none (some "boom") 9 jobRec0
    rfl (Or.inl rfl)

/-! ### Claim C7 — evaluate_cv returns only validated results -/

/-- C7: for every non-empty `cv_text` and non-empty `job_title`,
`evaluate_cv` either raises or returns a `CVResult` whose
`cv_match_rate` lies in `[0, 1]` with non-empty `cv_feedback`; it never
returns an out-of-range rate or empty feedback. -/
theorem C7_evaluate_cv_bounds (llm : Nat → Except String RawCV) (avail : Bool)
    (cvText jobTitle : String) (r : CVRes)
    (hcv : ¬(pyStrip cvText = "")) (hjt : ¬(pyStrip jobTitle = ""))
    (hok : (evaluateCV llm avail cvText jobTitle).1 = Except.ok r) :
    0 ≤ r.cv_match_rate ∧ r.cv_match_rate ≤ 1 ∧ r.cv_feedback ≠ "" := by
  unfold evaluateCV at hok
  by_cases ha : avail = false
  · simp [ha] at hok
  rw [if_neg ha, if_neg hcv, if_neg hjt] at hok
  cases hm : (aiRetry (cvAttempt llm) 5).1 with
  | error e => simp [hm] at hok
  | ok v =>
    simp only [hm] at hok
    have hv : v = r := by simpa using hok
    subst hv
    obtain ⟨i, hi⟩ := aiRetryGo_ok (cvAttempt llm) 5 5 0 v hm
    unfold cvAttempt at hi
    cases hl : llm i with
    | error e => simp [hl] at hi
    | ok raw =>
    simp only [hl] at hi
    cases hp : pydCV raw with
    | error e => simp [hp] at hi
    | ok r2 =>
    simp only [hp] at hi
    cases hvv : validateCVResp r2 with
    | error e => simp [hvv] at hi
    | ok u =>
    simp only [hvv, Except.ok.injEq] at hi
    subst hi
    unfold pydCV at hp
    dsimp only at hp
    split_ifs at hp with h1 h2 h3
    push_neg at h1
    obtain ⟨hlo, hhi⟩ := h1
    obtain ⟨hb0, hb1⟩ := roundTo2_bounds raw.rate (by linarith) (by linarith)
    simp only [Except.ok.injEq] at hp
    subst hp
    exact ⟨hb0, hb1, h2⟩

/-- Witness for C7: a backend materialising rate `0` with a long
feedback gives a returned result obeying the bounds. -/
theorem C7_evaluate_cv_bounds_witness :
    (evaluateCV llmGood true "Experienced backend developer" "Backend Engineer").1
      = Except.ok { cv_match_rate := 0, cv_feedback := "Strong backend and cloud skills" } ∧
    (0 : ℚ) ≤ ({ cv_match_rate := 0, cv_feedback := "Strong backend and cloud skills" } : CVRes).cv_match_rate ∧
    ({ cv_match_rate := 0, cv_feedback := "Strong backend and cloud skills" } : CVRes).cv_match_rate ≤ 1 ∧
    ({ cv_match_rate := 0, cv_feedback := "Strong backend and cloud skills" } : CVRes).cv_feedback ≠ "" := by
  have hround : roundTo2 0 = 0 := by
    simp [roundTo2]
  have hfb : pyStrip "Strong backend and cloud skills" = "Strong backend and cloud skills" := by
    decide
  have g1 : ¬(pyStrip "Experienced backend developer" = "") := by decide
  have g2 : ¬(pyStrip "Backend Engineer" = "") := by decide
  have hrate : ¬((0 : ℚ) < 0 ∨ (0 : ℚ) > 1) := by norm_num
  have hlen : ¬(("Strong backend and cloud skills" : String).length < 10) := by decide
  have hne : ¬(("Strong backend and cloud skills" : String) = "") := by decide
  have hatt : cvAttempt llmGood 0
      = Except.ok { cv_match_rate := 0, cv_feedback := "Strong backend and cloud skills" } := by
    norm_num [cvAttempt, llmGood, pydCV, validateCVResp, hfb, hround, hlen, hne]
  have hok : (evaluateCV llmGood true "Experienced backend developer" "Backend Engineer").1
      = Except.ok { cv_match_rate := 0, cv_feedback := "Strong backend and cloud skills" } := by
    simp [evaluateCV, g1, g2, aiRetry, aiRetryGo, hatt]
  exact ⟨hok,
    C7_evaluate_cv_bounds llmGood true "Experienced backend developer" "Backend Engineer"
      _ g1 g2 hok⟩

/-! ### Claim C8 — terminal jobs serve stable results -/

/-- C8: for a job already in a terminal state (`completed` or `failed`),
`main.get_result` leaves the terminal status unchanged, and an
immediately repeated call (same table, same cache) returns the identical
response and table — so polling a terminal job is idempotent. -/
theorem C8_terminal_get_result_idempotent (db : DB) (cache : Cache)
    (id now1 now2 : Nat) (job : JobRec)
    (hdb : db id = some job)
    (hterm : job.status = Status.completed ∨ job.status = Status.failed) :
    (((getResultApi db cache id now1).2) id).map (fun j => j.status) = some job.status ∧
    getResultApi ((getResultApi db cache id now1).2) cache id now2
      = getResultApi db cache id now1 := by
  have hnq : ¬(job.status = Status.queued ∨ job.status = Status.processing) := by
    rcases hterm with h | h <;> simp [h]
  have hnq2 : ¬(Status.completed = Status.queued ∨ Status.completed = Status.processing) := by
    decide
  rcases hterm with hc | hf
  · cases hrj : job.result_json with
    | some p =>
      have h1 : getResultApi db cache id now1
          = (ApiResp.completedResp (transformResult (some p)), db) := by
        simp [getResultApi, hdb, hnq, hc, hrj]
      rw [h1]
      exact ⟨by simp [hdb], by simp [getResultApi, hdb, hnq, hc, hrj]⟩
    | none =>
      cases hch : cache id with
      | some p =>
        have hlook : (updateStatus db id Status.completed (some p) none now1) id
            = some { job with
                     status := Status.completed, result_json := some p,
                     error_message := none, updated_at := now1 } := by
          simp [updateStatus, hdb]
        have h1 : getResultApi db cache id now1
            = (ApiResp.completedResp (transformResult (some p)),
               updateStatus db id Status.completed (some p) none now1) := by
          simp [getResultApi, hdb, hnq, hc, hrj, hch]
        rw [h1]
        constructor
        · simp [hlook, hc]
        · simp [getResultApi, hlook, hnq2]
      | none =>
        have h1 : getResultApi db cache id now1
            = (ApiResp.completedResp (transformResult none), db) := by
          simp [getResultApi, hdb, hnq, hc, hrj, hch]
        rw [h1]
        exact ⟨by simp [hdb], by simp [getResultApi, hdb, hnq, hc, hrj, hch]⟩
  · have hnc : ¬(job.status = Status.completed) := by simp [hf]
    have h1 : getResultApi db cache id now1
        = (ApiResp.failedResp (job.error_message.getD "Unknown error"), db) := by
      simp [getResultApi, hdb, hnq, hnc]
    rw [h1]
    exact ⟨by simp [hdb], by simp [getResultApi, hdb, hnq, hnc]⟩

/-- Witness for C8 on the completed fixture job: the status survives the
call and the second call is identical. -/
theorem C8_terminal_get_result_idempotent_witness :
    (((getResultApi dbC cache0 1 3).2) 1).map (fun j => j.status) = some jobRecC.status ∧
    getResultApi ((getResultApi dbC cache0 1 3).2) cache0 1 4
      = getResultApi dbC cache0 1 3 :=
  C8_terminal_get_result_idempotent dbC cache0 1 3 4 jobRecC rfl (Or.inl rfl)

/-! ### Claim C1 — completed results and the Job Record Store -/

/-- C1 counterexample: in the fixture run the worker completes job 1
successfully, yet the job table's `result_json` is null (the worker
passes no result to `update_status`), so once the broker's StoredResult
entry has expired the endpoint serves the all-default transform instead
of the evaluation result — the completed job is NOT servable from the
Job Record Store alone. -/
theorem C1_result_not_persisted_cex :
    (processJob env0 jd0 db0 1 2).1 = Except.ok fr0 ∧
    ((processJob env0 jd0 db0 1 2).2.1 1).map (fun j => j.status)
      = some Status.completed ∧
    ((processJob env0 jd0 db0 1 2).2.1 1).map (fun j => j.result_json)
      = some none ∧
    (getResultApi (processJob env0 jd0 db0 1 2).2.1 emptyCache 1 7).1
      = ApiResp.completedResp defaultSpec ∧
    transformResult (some (Payload.worker fr0)) ≠ defaultSpec := by
  refine ⟨rfl, rfl, rfl, rfl, ?_⟩
  intro h
  have hfe : (transformResult (some (Payload.worker fr0))).cv_feedback
      = defaultSpec.cv_feedback := by rw [h]
  exact absurd hfe (by decide)

/-- C1 amended: on a successful run, `SimpleWorker.process_job` marks the
job `completed` in the Job Record Store but persists NO result there
(`result_json` is nulled); the evaluation result lives only in the
broker's StoredResult entry, from which `main.get_result` can serve it
and backfill `result_json` while the entry is alive — once the entry has
expired without such a poll, the endpoint serves only the all-default
transform. -/
theorem C1_worker_persists_status_only (env : WEnv) (jd : QueueMsg) (db : DB)
    (t1 t2 t3 : Nat) (dc dr : Doc) (ct rt : String) (c : CVRes) (p : ProjRes)
    (o : OverallRes) (j : JobRec)
    (hdb : db jd.job_id = some j)
    (hdc : env.docs jd.cv_id = some dc)
    (hdr : env.docs jd.report_id = some dr)
    (hai : env.aiAvail = true)
    (hrc : env.readFile dc.path = Except.ok ct)
    (hrr : env.readFile dr.path = Except.ok rt)
    (hec : env.evalCV ct jd.job_title none = Except.ok c)
    (hep : env.evalProj rt jd.job_title none = Except.ok p)
    (hsy : env.synth c p = Except.ok o) :
    (processJob env jd db t1 t2).1 = Except.ok (mkFinal c p o) ∧
    ((processJob env jd db t1 t2).2.1 jd.job_id)
      = some { j with
               status := Status.completed, result_json := none,
               error_message := none, updated_at := t2 } ∧
    (getResultApi (processJob env jd db t1 t2).2.1
        (saveResult emptyCache jd.job_id (Payload.worker (mkFinal c p o)))
        jd.job_id t3).1
      = ApiResp.completedResp (transformResult (some (Payload.worker (mkFinal c p o)))) ∧
    ((getResultApi (processJob env jd db t1 t2).2.1
        (saveResult emptyCache jd.job_id (Payload.worker (mkFinal c p o)))
        jd.job_id t3).2 jd.job_id).map (fun x => x.result_json)
      = some (some (Payload.worker (mkFinal c p o))) ∧
    (getResultApi (processJob env jd db t1 t2).2.1 emptyCache jd.job_id t3).1
      = ApiResp.completedResp defaultSpec := by
  have hrun : processJob env jd db t1 t2
      = (Except.ok (mkFinal c p o),
         updateStatus (updateStatus db jd.job_id .processing none none t1)
           jd.job_id .completed none none t2,
         [Ev.updStatus jd.job_id .processing, Ev.evCV none, Ev.evProj none,
          Ev.updStatus jd.job_id .completed]) := by
    simp [processJob, hdc, hdr, hai, hrc, hrr, hec, hep, hsy]
  have hlook : (updateStatus (updateStatus db jd.job_id .processing none none t1)
        jd.job_id .completed none none t2) jd.job_id
      = some { j with
               status := Status.completed, result_json := none,
               error_message := none, updated_at := t2 } := by
    simp [updateStatus, hdb]
  have hnq2 : ¬(Status.completed = Status.queued ∨ Status.completed = Status.processing) := by
    decide
  have hlook2 : (updateStatus
        (updateStatus (updateStatus db jd.job_id .processing none none t1)
          jd.job_id .completed none none t2)
        jd.job_id Status.completed (some (Payload.worker (mkFinal c p o))) none t3)
        jd.job_id
      = some { j with
               status := Status.completed,
               result_json := some (Payload.worker (mkFinal c p o)),
               error_message := none, updated_at := t3 } := by
    simp [updateStatus, hdb]
  refine ⟨by rw [hrun], by rw [hrun]; exact hlook, ?_, ?_, ?_⟩
  · rw [hrun]
    simp [getResultApi, hlook, hnq2, saveResult, emptyCache]
  · rw [hrun]
    simp [getResultApi, hlook, hnq2, saveResult, emptyCache, hlook2]
  · rw [hrun]
    simp [getResultApi, hlook, hnq2, emptyCache, defaultSpec]

/-- Witness for the amended C1 in the fixture scenario. -/
theorem C1_worker_persists_status_only_witness :
    (processJob env0 jd0 db0 1 2).1 = Except.ok (mkFinal cvRes0 projRes0 overall0) ∧
    ((processJob env0 jd0 db0 1 2).2.1 jd0.job_id)
      = some { jobRec0 with
               status := Status.completed, result_json := none,
               error_message := none, updated_at := 2 } ∧
    (getResultApi (processJob env0 jd0 db0 1 2).2.1
        (saveResult emptyCache jd0.job_id
          (Payload.worker (mkFinal cvRes0 projRes0 overall0)))
        jd0.job_id 7).1
      = ApiResp.completedResp
          (transformResult (some (Payload.worker (mkFinal cvRes0 projRes0 overall0)))) ∧
    ((getResultApi (processJob env0 jd0 db0 1 2).2.1
        (saveResult emptyCache jd0.job_id
          (Payload.worker (mkFinal cvRes0 projRes0 overall0)))
        jd0.job_id 7).2 jd0.job_id).map (fun x => x.result_json)
      = some (some (Payload.worker (mkFinal cvRes0 projRes0 overall0))) ∧
    (getResultApi (processJob env0 jd0 db0 1 2).2.1 emptyCache jd0.job_id 7).1
      = ApiResp.completedResp defaultSpec :=
  C1_worker_persists_status_only env0 jd0 db0 1 2 7 doc1 doc2
    ("text of " ++ doc1.path) ("text of " ++ doc2.path) cvRes0 projRes0 overall0
    jobRec0 rfl rfl rfl rfl rfl rfl rfl rfl rfl

/-! ### Claim C2 — retrieval queries per dequeued job -/

/-- C2 counterexample: the fixture run of `SimpleWorker.process_job`
(the worker that dequeues broker messages) completes successfully while
performing ZERO Retrieval Subsystem queries, not two. -/
theorem C2_worker_no_retrieval_cex :
    (processJob env0 jd0 db0 1 2).1 = Except.ok fr0 ∧
    ((processJob env0 jd0 db0 1 2).2.2.filter isRagQ).length = 0 ∧
    ((processJob env0 jd0 db0 1 2).2.2.filter isRagQ).length ≠ 2 := by
  refine ⟨rfl, rfl, by decide⟩

/-- C2 amended: the dequeue-driven Redis worker performs NO retrieval
queries at all (it invokes the evaluation client without context
snippets); the twice-queried retrieval — once keyed by `job_title`, once
with the fixed project-scoring string, a failed query yielding empty
snippets while the job still proceeds — belongs to
`evaluation.evaluate_candidate_job`, the Celery-task evaluation path. -/
theorem C2_retrieval_lives_in_candidate_path :
    (∀ (env : WEnv) (jd : QueueMsg) (db : DB) (t1 t2 : Nat),
      ((processJob env jd db t1 t2).2.2.filter isRagQ) = []) ∧
    (∀ (env : CEnv) (db : DB) (jobId t1 t2 : Nat) (job : JobRec),
      db jobId = some job →
      ((evalCandidateJob env db jobId t1 t2).2.2.filter isRagQ)
        = [Ev.ragQuery job.job_title 3, Ev.ragQuery fixedProjectQuery 3]) ∧
    (∀ (env : CEnv) (db : DB) (jobId t1 t2 : Nat) (job : JobRec),
      db jobId = some job →
      (∀ q n, ∃ e, env.rag q n = Except.error e) →
      Ev.evCV (some []) ∈ (evalCandidateJob env db jobId t1 t2).2.2 ∧
      (∀ (c : CVRes) (p : ProjRes) (o : OverallRes),
        env.evalCV (candCvText env job) job.job_title (some []) = Except.ok c →
        env.evalProj (candRepText env job) env.caseText (some []) = Except.ok p →
        env.synth c p = Except.ok o →
        (evalCandidateJob env db jobId t1 t2).1
          = (true, "Evaluation completed successfully") ∧
        ((evalCandidateJob env db jobId t1 t2).2.1 jobId).map (fun x => x.status)
          = some Status.completed)) := by
  refine ⟨?_, ?_, ?_⟩
  · intro env jd db t1 t2
    unfold processJob
    dsimp only
    repeat' split
    all_goals simp [isRagQ]
  · intro env db jobId t1 t2 job hdb
    unfold evalCandidateJob
    rw [hdb]
    dsimp only
    repeat' split
    all_goals simp [isRagQ]
  · intro env db jobId t1 t2 job hdb hrag
    obtain ⟨e1, he1⟩ := hrag job.job_title 3
    obtain ⟨e2, he2⟩ := hrag fixedProjectQuery 3
    have hs1 : snippetsOf (env.rag job.job_title 3) = [] := by
      rw [he1]; rfl
    have hs2 : snippetsOf (env.rag fixedProjectQuery 3) = [] := by
      rw [he2]; rfl
    constructor
    · unfold evalCandidateJob
      rw [hdb]
      dsimp only
      rw [hs1, hs2]
      repeat' split
      all_goals simp
    · intro c p o hc hp ho
      unfold evalCandidateJob
      rw [hdb]
      dsimp only
      rw [hs1, hs2, hc]
      dsimp only
      rw [hp]
      dsimp only
      rw [ho]
      exact ⟨rfl, by simp [updateStatus, hdb]⟩

/-- Witness for the amended C2: the fixture worker run queries nothing;
a candidate-path run over a failing retrieval backend still completes,
with both evaluators invoked on empty snippet lists. -/
theorem C2_retrieval_lives_in_candidate_path_witness :
    ((processJob env0 jd0 db0 1 2).2.2.filter isRagQ) = [] ∧
    ((evalCandidateJob
        { docs := env0.docs, docText := fun d => "text of " ++ d.path,
          caseText := "case brief", rag := fun _ _ => Except.error "rag down",
          evalCV := fun _ _ _ => Except.ok cvRes0,
          evalProj := fun _ _ _ => Except.ok projRes0,
          synth := fun _ _ => Except.ok overall0 }
        db0 1 1 2).2.2.filter isRagQ)
      = [Ev.ragQuery jobRec0.job_title 3, Ev.ragQuery fixedProjectQuery 3] ∧
    Ev.evCV (some []) ∈ (evalCandidateJob
        { docs := env0.docs, docText := fun d => "text of " ++ d.path,
          caseText := "case brief", rag := fun _ _ => Except.error "rag down",
          evalCV := fun _ _ _ => Except.ok cvRes0,
          evalProj := fun _ _ _ => Except.ok projRes0,
          synth := fun _ _ => Except.ok overall0 }
        db0 1 1 2).2.2 ∧
    (evalCandidateJob
        { docs := env0.docs, docText := fun d => "text of " ++ d.path,
          caseText := "case brief", rag := fun _ _ => Except.error "rag down",
          evalCV := fun _ _ _ => Except.ok cvRes0,
          evalProj := fun _ _ _ => Except.ok projRes0,
          synth := fun _ _ => Except.ok overall0 }
        db0 1 1 2).1
      = (true, "Evaluation completed successfully") := by
  refine ⟨C2_retrieval_lives_in_candidate_path.1 env0 jd0 db0 1 2,
    C2_retrieval_lives_in_candidate_path.2.1 _ db0 1 1 2 jobRec0 rfl,
    (C2_retrieval_lives_in_candidate_path.2.2 _ db0 1 1 2 jobRec0 rfl
      (fun q n => ⟨"rag down", rfl⟩)).1,
    ((C2_retrieval_lives_in_candidate_path.2.2 _ db0 1 1 2 jobRec0 rfl
      (fun q n => ⟨"rag down", rfl⟩)).2 cvRes0 projRes0 overall0 rfl rfl rfl).1⟩

end HrService
